import Mathlib

/-!
Verification development for the job lifecycle and progress-reporting engine
of a chat-bot media downloader (src/bot.py, src/utils.py).

The Python source is shallowly embedded: pure helpers become Lean functions,
the stateful callback handlers become explicit functions on a registry value,
the four-strategy fallback ladder of cb_get becomes a function on an
environment recording what each strategy would do, and filesystem state is an
explicit map from paths to file sizes (none means the path does not exist,
mirroring os.path.getsize raising FileNotFoundError).
-/

namespace DlBot

/-- Decimal digit character for a digit value below ten (the way Python
prints a digit of an int). -/
def digitChar (d : Nat) : Char :=
  match d with
  | 0 => '0'
  | 1 => '1'
  | 2 => '2'
  | 3 => '3'
  | 4 => '4'
  | 5 => '5'
  | 6 => '6'
  | 7 => '7'
  | 8 => '8'
  | _ => '9'

/-- Value of a decimal digit string, as Python computes int(s) for a string
of ASCII digits. -/
def decimalValue (l : List Char) : Nat :=
  l.foldl (fun a c => 10 * a + (c.toNat - 48)) 0

/-- Fuel-driven decimal printer (most significant digit first). -/
def natDecimalAux (fuel n : Nat) : List Char :=
  match fuel with
  | 0 => []
  | fuel + 1 =>
    if n < 10 then [digitChar n]
    else natDecimalAux fuel (n / 10) ++ [digitChar (n % 10)]

/-- Decimal representation of a natural number, as Python str(int) prints it. -/
def natDecimal (n : Nat) : List Char :=
  natDecimalAux (n + 1) n

/-- The height-capped selector string token_to_format builds with an f-string:
bv*[height<=H]+ba/b[height<=H] for the numeric height H. -/
def capped_selector (h : Nat) : String :=
  "bv*[height<=" ++ String.mk (natDecimal h) ++ "]+ba/b[height<=" ++
    String.mk (natDecimal h) ++ "]"

/-- Embedding of token_to_format (src/bot.py lines 574-580): the token best
maps to bv*+ba/b; a token starting with the letter h whose remaining
characters form a non-empty digit string maps to the height-capped selector;
everything else falls back to bv*+ba/b. -/
def token_to_format (token : String) : String :=
  if token = "best" then "bv*+ba/b"
  else
    match token.data with
    | c :: rest =>
      if (c == 'h') && (!rest.isEmpty) && rest.all Char.isDigit then
        capped_selector (decimalValue rest)
      else "bv*+ba/b"
    | [] => "bv*+ba/b"

/-- Format tokens produced by kb_format_choices (src/bot.py lines 273-283):
the token best when include_best is set, and a token hN for each distinct
nonzero height, iterated in descending sorted order over the set of heights. -/
def kb_tokens (heights : List Nat) (include_best : Bool) : List String :=
  (if include_best then ["best"] else []) ++
    (((List.insertionSort (fun a b => a ≥ b) heights.dedup).filter
        (fun h => h ≠ 0)).map (fun h => "h" ++ String.mk (natDecimal h)))

/-- Embedding of file_too_large (src/bot.py lines 83-87 and src/utils.py
lines 27-32): os.path.getsize is modelled by the map fs; a missing path
(getsize raising FileNotFoundError) yields false, an existing path compares
its byte size against the megabyte ceiling. bot.py reads the ceiling from
the module global MAX_FILE_MB and utils.py takes it as the max_mb argument;
both are the maxMb parameter here. -/
def file_too_large (fs : String → Option Nat) (path : String) (maxMb : Nat) : Bool :=
  match fs path with
  | some size => size > maxMb * 1024 * 1024
  | none => false

/-- A job record as created by on_url (src/bot.py lines 631-634); the UI
message handle is dropped from the embedding since the claims never inspect
it. -/
structure Job where
  url : String
  title : String
  cancelled : Bool
  dl_url : Option String
  dl_is_direct : Bool
  direct_mp4 : Option String
deriving DecidableEq

/-- The in-memory JOBS table: job id to job record. -/
abbrev Registry := List (String × Job)

/-- JOBS.get(job_id): lookup in the registry. -/
def reg_get (r : Registry) (k : String) : Option Job :=
  (r.find? (fun p => p.1 == k)).map (fun p => p.2)

/-- JOBS[job_id]["cancelled"] = True, applied only when the id is present
(the `if job_id in JOBS` guard of cb_cancel). -/
def reg_set_cancelled (r : Registry) (k : String) : Registry :=
  r.map (fun p => if p.1 == k then (p.1, { p.2 with cancelled := true }) else p)

/-- JOBS.pop(job_id, None): drop the entry for the id. -/
def reg_pop (r : Registry) (k : String) : Registry :=
  r.filter (fun p => p.1 != k)

/-- Embedding of cb_cancel (src/bot.py lines 784-792): set the cancellation
flag on the job if it is present, then pop the job from the table. -/
def cb_cancel (r : Registry) (k : String) : Registry :=
  reg_pop (reg_set_cancelled r k) k

/-- The cancellation poll performed by the progress hook in cb_get (line 817)
and by direct_http_download (line 743): JOBS.get(job_id, \x7b\x7d).get("cancelled")
is truthy exactly when the id is present and its cancelled flag is set; a
missing id yields the empty dict, whose get returns the falsy None. -/
def hook_cancel_check (r : Registry) (k : String) : Bool :=
  match reg_get r k with
  | some j => j.cancelled
  | none => false

/-- Entry behaviour of cb_get (src/bot.py lines 794-799) on a callback
carrying a job id: a missing id is answered with a blocking alert and the
handler returns; a present id proceeds with the stored job. -/
inductive CbGetEntry where
  | missingAlert (text : String)
  | proceed (j : Job)
deriving DecidableEq

/-- cb_get lookup and early return on a missing job id. -/
def cb_get_entry (r : Registry) (k : String) : CbGetEntry :=
  match reg_get r k with
  | some j => CbGetEntry.proceed j
  | none => CbGetEntry.missingAlert ("Job missing.")

/-- Exceptions crossing the strategy boundary in cb_get: yt_dlp DownloadError
(including the cancellation abort raised by the hooks) versus any other
exception type, matching the two outer except clauses. -/
inductive Exc where
  | downloadErr (msg : String)
  | otherErr (name msg : String)
deriving DecidableEq

instance {ε α : Type} [DecidableEq ε] [DecidableEq α] : DecidableEq (Except ε α) :=
  fun a b =>
    match a, b with
    | Except.error x, Except.error y =>
      match decEq x y with
      | isTrue h => isTrue (congrArg Except.error h)
      | isFalse h => isFalse (fun he => h (Except.error.inj he))
    | Except.ok x, Except.ok y =>
      match decEq x y with
      | isTrue h => isTrue (congrArg Except.ok h)
      | isFalse h => isFalse (fun he => h (Except.ok.inj he))
    | Except.error _, Except.ok _ => isFalse (fun he => Except.noConfusion he)
    | Except.ok _, Except.error _ => isFalse (fun he => Except.noConfusion he)

/-- Result of one download strategy: a final path or a raised exception. -/
abbrev SRes := Except Exc String

/-- Environment for one cb_get run: what each of the four strategies would
return if attempted while the cancellation poll stays false, and what
sniff_direct_once would find on the page. -/
structure StratEnv where
  s1 : SRes
  s2 : SRes
  s3 : SRes
  s4 : SRes
  sniff_m3u8 : Option String
  sniff_mp4 : Option String
deriving DecidableEq

/-- The abort the progress hook and the raw-stream chunk loop raise when the
cancellation poll is truthy. -/
def cancelErr : Exc :=
  Exc.downloadErr ("Cancelled by user")

/-- Effective result of a strategy given the cancellation poll: a truthy poll
makes the next progress callback (or chunk boundary) raise the cancellation
DownloadError; otherwise the strategy behaves as the environment says. -/
def sres (cancelled : Bool) (r : SRes) : SRes :=
  if cancelled then Except.error cancelErr else r

/-- Whether a strategy result is a raised exception. -/
def isErr (r : SRes) : Bool :=
  match r with
  | Except.error _ => true
  | Except.ok _ => false

/-- Python str.endswith on the character lists of the two strings. -/
def str_ends_with (u suffix : String) : Bool :=
  suffix.data.isSuffixOf u.data

/-- The m3u8/mp4 pair computed at strategy 3 (src/bot.py lines 863-875): if
the job carries a sniffed dl_url ending in .m3u8 use it as the manifest URL;
otherwise if the job carries a direct mp4 use that; otherwise (and when no
dl_url was stored) re-sniff the page. -/
def sniffPair (job : Job) (env : StratEnv) : Option String × Option String :=
  match job.dl_url with
  | some u =>
    if str_ends_with u (".m3u8") then (some u, none)
    else
      match job.direct_mp4 with
      | some m => (none, some m)
      | none => (env.sniff_m3u8, env.sniff_mp4)
  | none => (env.sniff_m3u8, env.sniff_mp4)

/-- The HLS manifest URL available to strategy 3. -/
def m3u8Of (job : Job) (env : StratEnv) : Option String :=
  (sniffPair job env).1

/-- The direct mp4 URL found by the sniff step. -/
def mp4Of (job : Job) (env : StratEnv) : Option String :=
  (sniffPair job env).2

/-- Outcome of the strategy ladder plus the list of strategies that were
started, in order. -/
structure LadderOut where
  result : Except Exc (Option String)
  attempted : List Nat
deriving DecidableEq

/-- Embedding of the four-strategy block of cb_get (src/bot.py lines
852-886): strategy 1 is yt-dlp with the native extractor; any exception from
it is swallowed and strategy 2 (generic extractor) runs; any exception from
that is swallowed and the sniffed pair is computed; strategy 3 (yt-dlp on the
manifest URL) runs only when a manifest URL is available and its exception is
swallowed by the inner pass; strategy 4 (raw streamed fetch) runs only when
no path was produced yet and an mp4 URL is known, and its exception
propagates to the outer handlers. -/
def ladder (job : Job) (env : StratEnv) (cancelled : Bool) : LadderOut :=
  match sres cancelled env.s1 with
  | Except.ok p => ⟨Except.ok (some p), [1]⟩
  | Except.error _ =>
    match sres cancelled env.s2 with
    | Except.ok p => ⟨Except.ok (some p), [1, 2]⟩
    | Except.error _ =>
      match m3u8Of job env with
      | some _ =>
        match sres cancelled env.s3 with
        | Except.ok p => ⟨Except.ok (some p), [1, 2, 3]⟩
        | Except.error _ =>
          if (mp4Of job env).isSome || job.direct_mp4.isSome then
            match sres cancelled env.s4 with
            | Except.ok p => ⟨Except.ok (some p), [1, 2, 3, 4]⟩
            | Except.error e => ⟨Except.error e, [1, 2, 3, 4]⟩
          else ⟨Except.ok none, [1, 2, 3]⟩
      | none =>
        if (mp4Of job env).isSome || job.direct_mp4.isSome then
          match sres cancelled env.s4 with
          | Except.ok p => ⟨Except.ok (some p), [1, 2, 4]⟩
          | Except.error e => ⟨Except.error e, [1, 2, 4]⟩
        else ⟨Except.ok none, [1, 2]⟩

/-- Result of one upload attempt in send_with_retry: success, an exception
whose text matches the transient-transport patterns (closing transport or
Timeout), or any other exception. -/
inductive UpRes where
  | ok
  | transient
  | fatal
deriving DecidableEq

/-- Embedding of send_with_retry (src/bot.py lines 764-782): at most two
attempts; a transient failure of the first attempt is retried once, any
failure of the second attempt and a non-transient failure of the first
attempt re-raise. Returns whether the upload succeeded and how many attempts
were made. -/
def send_with_retry (a0 a1 : UpRes) : Bool × Nat :=
  match a0 with
  | UpRes.ok => (true, 1)
  | UpRes.transient => (a1 == UpRes.ok, 2)
  | UpRes.fatal => (false, 1)

/-- Terminal outcome of one cb_get run, after the ladder. -/
inductive Outcome where
  | failedDownload (msg : String)
  | failedOther (msg : String)
  | fileNotFound
  | tooLarge
  | uploadFailed
  | delivered
deriving DecidableEq

/-- What one cb_get run leaves behind: the outcome shown to the user, whether
the job entry survives in JOBS, whether the downloaded file was removed from
disk, and how many upload attempts were made. -/
structure RunResult where
  outcome : Outcome
  jobKept : Bool
  fileDeleted : Bool
  uploadAttempts : Nat
deriving DecidableEq

/-- Embedding of cb_get after format selection (src/bot.py lines 852-943):
run the ladder; a propagated DownloadError or other exception reports failure
and pops the job; a missing final path or a path absent from disk reports
file-not-found and pops the job; an oversized file reports too-large, deletes
the file and keeps the job for a new quality choice; otherwise upload with
one retry, reporting failure (deleting the file, popping the job) or success
(deleting the message and file, popping the job). -/
def cb_get_run (job : Job) (env : StratEnv) (cancelled : Bool)
    (fs : String → Option Nat) (maxMb : Nat) (a0 a1 : UpRes) : RunResult :=
  match (ladder job env cancelled).result with
  | Except.error (Exc.downloadErr m) => ⟨Outcome.failedDownload m, false, false, 0⟩
  | Except.error (Exc.otherErr n m) => ⟨Outcome.failedOther (n ++ ": " ++ m), false, false, 0⟩
  | Except.ok none => ⟨Outcome.fileNotFound, false, false, 0⟩
  | Except.ok (some p) =>
    match fs p with
    | none => ⟨Outcome.fileNotFound, false, false, 0⟩
    | some _ =>
      if file_too_large fs p maxMb then ⟨Outcome.tooLarge, true, true, 0⟩
      else
        let up := send_with_retry a0 a1
        if up.1 then ⟨Outcome.delivered, false, true, up.2⟩
        else ⟨Outcome.uploadFailed, false, true, up.2⟩

/-- Output-path discovery inside ytdlp_run (src/bot.py line 850): the path
captured from the finished progress event if any, else the value of
prepare_filename on the final metadata. -/
def discover_path (startedFile : Option String) (predicted : String) : String :=
  startedFile.getD predicted

/-- Embedding of ytdlp_run (src/bot.py lines 844-850): when the engine call
raises, the exception propagates; when it returns, the discovered path is
reported. -/
def ytdlp_run (engine : Except Exc Unit) (startedFile : Option String)
    (predicted : String) : SRes :=
  match engine with
  | Except.error e => Except.error e
  | Except.ok _ => Except.ok (discover_path startedFile predicted)

/-- Modelled from the spec: the directory-scan discovery step the spec
describes as step (c) — scan the download directory for files whose name
contains the media's unique identifier and select the largest match. No such
scan exists in src/bot.py; this definition follows the spec's words and is
used only to compare the code against the claim. -/
def spec_id_scan (files : List (String × Nat)) (mid : String) : Option String :=
  ((files.filter (fun f => decide (List.IsInfix mid.data f.1.data))).foldl
      (fun acc f =>
        match acc with
        | none => some f
        | some g => if f.2 > g.2 then some f else some g)
      none).map (fun f => f.1)

/-- Filesystem view of a finite list of files. -/
def fsOf (files : List (String × Nat)) : String → Option Nat :=
  fun p => (files.find? (fun f => f.1 == p)).map (fun f => f.2)

/-- A job as on_url creates it for a plain URL: cancellation flag clear, no
sniffed direct media. -/
def job1 : Job :=
  { url := "https://example.com/v", title := "example.com video", cancelled := false,
    dl_url := none, dl_is_direct := false, direct_mp4 := none }

/-- An execution environment where the native-extractor strategy succeeds. -/
def env1 : StratEnv :=
  { s1 := Except.ok ("downloads/vid [id1].mp4"),
    s2 := Except.error (Exc.downloadErr ("x")),
    s3 := Except.error (Exc.downloadErr ("x")),
    s4 := Except.error (Exc.downloadErr ("x")),
    sniff_m3u8 := none, sniff_mp4 := none }

/-- Disk contents after env1's download: a 1000-byte output file. -/
def fs1 : String → Option Nat :=
  fsOf [("downloads/vid [id1].mp4", 1000)]

/-- An execution environment where the native extractor raises a
DRM-related DownloadError and the generic extractor succeeds. -/
def envDRM : StratEnv :=
  { s1 := Except.error (Exc.downloadErr ("ERROR: This video is DRM protected")),
    s2 := Except.ok ("downloads/video [id2].mp4"),
    s3 := Except.error (Exc.downloadErr ("x")),
    s4 := Except.error (Exc.downloadErr ("x")),
    sniff_m3u8 := none, sniff_mp4 := none }

/-- Disk contents after envDRM's download. -/
def fsDRM : String → Option Nat :=
  fsOf [("downloads/video [id2].mp4", 1000)]

/-- An execution environment where the engine finishes without a captured
finished-event path and the predicted filename is downloads/pred.mp4. -/
def envC5 : StratEnv :=
  { s1 := ytdlp_run (Except.ok ()) none ("downloads/pred.mp4"),
    s2 := Except.error (Exc.downloadErr ("x")),
    s3 := Except.error (Exc.downloadErr ("x")),
    s4 := Except.error (Exc.downloadErr ("x")),
    sniff_m3u8 := none, sniff_mp4 := none }

/-- Disk contents where the predicted path is absent but a file carrying the
media identifier abc123 exists. -/
def filesC5 : List (String × Nat) :=
  [("downloads/vid [abc123].mp4", 5000)]

/-- An execution environment producing a 3 GiB output file. -/
def envBig : StratEnv :=
  { s1 := Except.ok ("downloads/big [id3].mp4"),
    s2 := Except.error (Exc.downloadErr ("x")),
    s3 := Except.error (Exc.downloadErr ("x")),
    s4 := Except.error (Exc.downloadErr ("x")),
    sniff_m3u8 := none, sniff_mp4 := none }

/-- Disk contents after envBig's download: a 3 GiB file. -/
def fsBig : String → Option Nat :=
  fsOf [("downloads/big [id3].mp4", 3 * 1024 * 1024 * 1024)]

theorem digitChar_isDigit (d : Nat) : (digitChar d).isDigit = true := by
  unfold digitChar
  split <;> decide

theorem digitChar_toNat (d : Nat) (h : d < 10) : (digitChar d).toNat = 48 + d := by
  interval_cases d <;> decide

theorem decimalValue_append_singleton (l : List Char) (c : Char) :
    decimalValue (l ++ [c]) = 10 * decimalValue l + (c.toNat - 48) := by
  simp [decimalValue, List.foldl_append]

theorem decimalValue_natDecimalAux (fuel n : Nat) (h : n < fuel) :
    decimalValue (natDecimalAux fuel n) = n := by
  induction fuel generalizing n with
  | zero => omega
  | succ f ih =>
    by_cases h10 : n < 10
    · simp only [natDecimalAux, if_pos h10]
      simp [decimalValue, digitChar_toNat n h10]
    · simp only [natDecimalAux, if_neg h10]
      rw [decimalValue_append_singleton, ih (n / 10) (by omega),
        digitChar_toNat (n % 10) (by omega)]
      omega

/-- The decimal printer and the decimal reader round-trip: reading back the
printed digits of a height recovers the height. -/
theorem decimalValue_natDecimal (n : Nat) : decimalValue (natDecimal n) = n :=
  decimalValue_natDecimalAux (n + 1) n (by omega)

theorem natDecimalAux_digits (fuel n : Nat) (h : n < fuel) :
    (natDecimalAux fuel n).all Char.isDigit = true := by
  induction fuel generalizing n with
  | zero => omega
  | succ f ih =>
    by_cases h10 : n < 10
    · simp [natDecimalAux, if_pos h10, digitChar_isDigit]
    · simp only [natDecimalAux, if_neg h10, List.all_append]
      simp [ih (n / 10) (by omega), digitChar_isDigit]

theorem natDecimal_digits (n : Nat) : (natDecimal n).all Char.isDigit = true :=
  natDecimalAux_digits (n + 1) n (by omega)

theorem natDecimalAux_ne_nil (fuel n : Nat) (h : n < fuel) :
    natDecimalAux fuel n ≠ [] := by
  cases fuel with
  | zero => omega
  | succ f =>
    by_cases h10 : n < 10 <;> simp [natDecimalAux, h10]

theorem natDecimal_ne_nil (n : Nat) : natDecimal n ≠ [] :=
  natDecimalAux_ne_nil (n + 1) n (by omega)

/-- On a token consisting of the letter h followed by a non-empty digit
string, token_to_format takes its height-capped branch. -/
theorem tf_on_digits (rest : List Char) (h1 : rest ≠ [])
    (h2 : rest.all Char.isDigit = true) :
    token_to_format ("h" ++ String.mk rest) = capped_selector (decimalValue rest) := by
  have hne : ("h" ++ String.mk rest) ≠ "best" := by
    intro h
    have hd := congrArg String.data h
    simp [String.data] at hd
  unfold token_to_format
  rw [if_neg hne]
  have hdata : ("h" ++ String.mk rest).data = 'h' :: rest := rfl
  rw [hdata]
  simp [h1, h2]

/-- Claim C1 (code bug): cb_cancel does set the cancellation flag, but then
immediately pops the job from JOBS, so the cancellation poll the progress
hook and the raw-stream chunk loop perform afterwards reads the empty-dict
default and stays false forever; the running download therefore never
observes the cancellation, finishes normally, and the file is uploaded —
contradicting the claim that the flag is observed at the next progress
callback, the job terminates as cancelled and the file is never delivered. -/
theorem C1_cancellation_flag_lost :
    hook_cancel_check (reg_set_cancelled [("j1", job1)] "j1") "j1" = true ∧
    hook_cancel_check (cb_cancel [("j1", job1)] "j1") "j1" = false ∧
    (cb_get_run job1 env1 (hook_cancel_check (cb_cancel [("j1", job1)] "j1") "j1")
        fs1 1900 UpRes.ok UpRes.ok).outcome = Outcome.delivered := by
  refine ⟨by decide, by decide, by decide⟩

/-- Claim C2, counterexample: when strategy 1 raises a DRM-worded
DownloadError, the ladder does not stop with a terminal failed state and a
fixed DRM message; strategy 2 is attempted and the job is delivered. -/
theorem C2_counterexample :
    (ladder job1 envDRM false).attempted = [1, 2] ∧
    (cb_get_run job1 envDRM false fsDRM 1900 UpRes.ok UpRes.ok).outcome =
      Outcome.delivered := by
  refine ⟨by decide, by decide⟩

/-- Claim C2, amended: cb_get performs no DRM classification at all — every
exception raised by strategy 1, DRM-related or not, is swallowed and
strategy 2 is attempted next; there is no short-circuit and no fixed
DRM-not-supported terminal message. -/
theorem C2_no_drm_short_circuit (job : Job) (env : StratEnv) (e : Exc) (p : String)
    (h1 : env.s1 = Except.error e) (h2 : env.s2 = Except.ok p) :
    ladder job env false = ⟨Except.ok (some p), [1, 2]⟩ := by
  unfold ladder
  simp [sres, h1, h2]

/-- Witness for C2: the amended theorem applied to the concrete DRM-worded
environment. -/
theorem C2_witness :
    ladder job1 envDRM false =
      ⟨Except.ok (some ("downloads/video [id2].mp4")), [1, 2]⟩ :=
  C2_no_drm_short_circuit job1 envDRM
    (Exc.downloadErr ("ERROR: This video is DRM protected"))
    ("downloads/video [id2].mp4") rfl rfl

/-- Claim C3, counterexample: a format-selection callback whose job id is
absent from the registry is answered with the dead-end alert Job missing.;
no fresh job is derived from the URL in the UI message. -/
theorem C3_counterexample :
    cb_get_entry [] ("deadbeef") = CbGetEntry.missingAlert ("Job missing.") := by
  decide

/-- Claim C3, amended: for every job id absent from the registry, cb_get
answers the callback with the Job missing. alert and returns without
proceeding; it never re-derives a job from the message context. -/
theorem C3_missing_job_dead_end (r : Registry) (k : String)
    (h : reg_get r k = none) :
    cb_get_entry r k = CbGetEntry.missingAlert ("Job missing.") := by
  unfold cb_get_entry
  rw [h]

/-- Witness for C3: the amended theorem applied to a registry that holds a
different job id. -/
theorem C3_witness :
    cb_get_entry [("j1", job1)] ("other") = CbGetEntry.missingAlert ("Job missing.") :=
  C3_missing_job_dead_end [("j1", job1)] ("other") (by decide)

/-- Claim C4, counterexample: with the cancellation poll truthy, strategy 1
aborts with the cancellation DownloadError and strategy 2 is nevertheless
attempted — the ladder performs no job-was-not-cancelled check at strategy
boundaries, contrary to the claim. -/
theorem C4_counterexample :
    sres true env1.s1 = Except.error cancelErr ∧
    (ladder job1 env1 true).attempted = [1, 2] := by
  refine ⟨by decide, by decide⟩

/-- Claim C4, amended: the fallback order is exactly native extractor,
generic extractor, engine on a discovered HLS manifest URL, raw mp4 stream;
each later step runs exactly when every applicable earlier step raised
(with no cancellation check at strategy boundaries — a cancellation abort
inside a step counts as that step raising), step 3 runs only when a manifest
URL is available, step 4 only when an mp4 URL is known, and once a step
yields a path no further step runs. -/
theorem C4_ladder_order (job : Job) (env : StratEnv) (c : Bool) :
    1 ∈ (ladder job env c).attempted ∧
    (2 ∈ (ladder job env c).attempted ↔ isErr (sres c env.s1) = true) ∧
    (3 ∈ (ladder job env c).attempted ↔
      (isErr (sres c env.s1) = true ∧ isErr (sres c env.s2) = true ∧
        (m3u8Of job env).isSome = true)) ∧
    (4 ∈ (ladder job env c).attempted ↔
      (isErr (sres c env.s1) = true ∧ isErr (sres c env.s2) = true ∧
        ((m3u8Of job env).isSome = true → isErr (sres c env.s3) = true) ∧
        ((mp4Of job env).isSome || job.direct_mp4.isSome) = true)) ∧
    (∀ p, sres c env.s1 = Except.ok p →
      ladder job env c = ⟨Except.ok (some p), [1]⟩) ∧
    (∀ p, isErr (sres c env.s1) = true → sres c env.s2 = Except.ok p →
      ladder job env c = ⟨Except.ok (some p), [1, 2]⟩) ∧
    (∀ p, isErr (sres c env.s1) = true → isErr (sres c env.s2) = true →
      (m3u8Of job env).isSome = true → sres c env.s3 = Except.ok p →
      ladder job env c = ⟨Except.ok (some p), [1, 2, 3]⟩) := by
  rcases h1 : sres c env.s1 with e1 | p1 <;>
    rcases h2 : sres c env.s2 with e2 | p2 <;>
      rcases h3 : sres c env.s3 with e3 | p3 <;>
        rcases h4 : sres c env.s4 with e4 | p4 <;>
          rcases hm : m3u8Of job env with _ | u <;>
            by_cases hc4 : ((mp4Of job env).isSome || job.direct_mp4.isSome) = true <;>
              simp [ladder, h1, h2, h3, h4, hm, hc4, isErr]

/-- Witness for C4: the order theorem applied to the environment where
strategy 1 succeeds, showing the ladder stops after step 1. -/
theorem C4_witness :
    1 ∈ (ladder job1 env1 false).attempted ∧
    ladder job1 env1 false = ⟨Except.ok (some ("downloads/vid [id1].mp4")), [1]⟩ :=
  ⟨(C4_ladder_order job1 env1 false).1,
    (C4_ladder_order job1 env1 false).2.2.2.2.1 ("downloads/vid [id1].mp4") (by decide)⟩

/-- Claim C5, counterexample: with no finished-event path, a predicted path
absent from disk, and a file carrying the media identifier present in the
download directory, cb_get fails with file-not-found — the directory scan
the claim describes as discovery step (c) is never performed. -/
theorem C5_counterexample :
    (cb_get_run job1 envC5 false (fsOf filesC5) 1900 UpRes.ok UpRes.ok).outcome =
      Outcome.fileNotFound ∧
    spec_id_scan filesC5 ("abc123") = some ("downloads/vid [abc123].mp4") := by
  refine ⟨by decide, by decide⟩

/-- Claim C5, amended: the output path is the finished-event path when one
was captured and otherwise the filename prediction — there is no directory
scan; if the resulting path does not exist on disk the job ends with the
file-not-found outcome, which is distinct from a download-error failure, and
the job is removed. -/
theorem C5_path_discovery (pred f : String) (job : Job) (env : StratEnv) (c : Bool)
    (fs : String → Option Nat) (maxMb : Nat) (a0 a1 : UpRes) (p : String) :
    discover_path none pred = pred ∧
    discover_path (some f) pred = f ∧
    ((ladder job env c).result = Except.ok (some p) → fs p = none →
      (cb_get_run job env c fs maxMb a0 a1).outcome = Outcome.fileNotFound ∧
      (cb_get_run job env c fs maxMb a0 a1).jobKept = false) ∧
    (∀ m, (Outcome.fileNotFound : Outcome) ≠ Outcome.failedDownload m) := by
  refine ⟨rfl, rfl, ?_, by intro m h; exact Outcome.noConfusion h⟩
  intro hl hfs
  unfold cb_get_run
  simp [hl, hfs]

/-- Witness for C5: the amended theorem applied to the concrete run whose
predicted path is absent from disk. -/
theorem C5_witness :
    (cb_get_run job1 envC5 false (fsOf filesC5) 1900 UpRes.ok UpRes.ok).outcome =
      Outcome.fileNotFound ∧
    (cb_get_run job1 envC5 false (fsOf filesC5) 1900 UpRes.ok UpRes.ok).jobKept = false :=
  (C5_path_discovery "downloads/pred.mp4" "x" job1 envC5 false (fsOf filesC5) 1900
    UpRes.ok UpRes.ok ("downloads/pred.mp4")).2.2.1 (by decide) (by decide)

/-- Claim C6 (confirmed): after a completed download with discovered path p
that exists on disk, the run ends in the too-large outcome exactly when the
size of p strictly exceeds MAX_FILE_MB times 1024 times 1024; in that case
no upload attempt is made and the job entry is kept in the registry, and
otherwise at least one upload attempt is made and the run ends delivered or
upload-failed. -/
theorem C6_size_gate (job : Job) (env : StratEnv) (c : Bool)
    (fs : String → Option Nat) (maxMb : Nat) (a0 a1 : UpRes) (p : String) (sz : Nat)
    (hl : (ladder job env c).result = Except.ok (some p)) (hfs : fs p = some sz) :
    ((cb_get_run job env c fs maxMb a0 a1).outcome = Outcome.tooLarge ↔
      sz > maxMb * 1024 * 1024) ∧
    (sz > maxMb * 1024 * 1024 →
      (cb_get_run job env c fs maxMb a0 a1).jobKept = true ∧
      (cb_get_run job env c fs maxMb a0 a1).uploadAttempts = 0) ∧
    (¬ sz > maxMb * 1024 * 1024 →
      1 ≤ (cb_get_run job env c fs maxMb a0 a1).uploadAttempts ∧
      ((cb_get_run job env c fs maxMb a0 a1).outcome = Outcome.delivered ∨
        (cb_get_run job env c fs maxMb a0 a1).outcome = Outcome.uploadFailed)) := by
  unfold cb_get_run
  by_cases hsz : sz > maxMb * 1024 * 1024
  · have hft : file_too_large fs p maxMb = true := by
      simp [file_too_large, hfs, hsz]
    simp [hl, hfs, hft, hsz]
  · have hft : file_too_large fs p maxMb = false := by
      simp [file_too_large, hfs, hsz]
    cases a0 <;> cases a1 <;> simp [hl, hfs, hft, hsz, send_with_retry]

/-- Witness for C6: the size gate applied to the 3 GiB output with the 1900
MB ceiling. -/
theorem C6_witness :
    ((cb_get_run job1 envBig false fsBig 1900 UpRes.ok UpRes.ok).outcome =
        Outcome.tooLarge ↔ 3 * 1024 * 1024 * 1024 > 1900 * 1024 * 1024) ∧
    (cb_get_run job1 envBig false fsBig 1900 UpRes.ok UpRes.ok).jobKept = true ∧
    (cb_get_run job1 envBig false fsBig 1900 UpRes.ok UpRes.ok).uploadAttempts = 0 :=
  ⟨(C6_size_gate job1 envBig false fsBig 1900 UpRes.ok UpRes.ok
      ("downloads/big [id3].mp4") (3 * 1024 * 1024 * 1024) (by decide) (by decide)).1,
    (C6_size_gate job1 envBig false fsBig 1900 UpRes.ok UpRes.ok
      ("downloads/big [id3].mp4") (3 * 1024 * 1024 * 1024) (by decide) (by decide)).2.1
      (by decide)⟩

/-- Claim C7, counterexample: when both upload attempts fail, cb_get reports
the failure but deletes the downloaded file from disk — it is not retained
as the claim states. -/
theorem C7_counterexample :
    (cb_get_run job1 env1 false fs1 1900 UpRes.transient UpRes.fatal).outcome =
      Outcome.uploadFailed ∧
    (cb_get_run job1 env1 false fs1 1900 UpRes.transient UpRes.fatal).fileDeleted =
      true := by
  refine ⟨by decide, by decide⟩

/-- Claim C7, amended: a transient transport fault on the first upload
attempt is retried exactly once (two attempts total, against one attempt for
a non-transient first fault); if the upload still fails, the failure is
reported, the downloaded file is deleted from disk and the job is removed. -/
theorem C7_upload_retry (job : Job) (env : StratEnv) (c : Bool)
    (fs : String → Option Nat) (maxMb : Nat) (a1 : UpRes) (p : String) (sz : Nat)
    (hl : (ladder job env c).result = Except.ok (some p)) (hfs : fs p = some sz)
    (hsz : ¬ sz > maxMb * 1024 * 1024) :
    (cb_get_run job env c fs maxMb UpRes.transient a1).uploadAttempts = 2 ∧
    (a1 ≠ UpRes.ok →
      (cb_get_run job env c fs maxMb UpRes.transient a1).outcome = Outcome.uploadFailed ∧
      (cb_get_run job env c fs maxMb UpRes.transient a1).fileDeleted = true ∧
      (cb_get_run job env c fs maxMb UpRes.transient a1).jobKept = false) ∧
    (∀ b1, (cb_get_run job env c fs maxMb UpRes.fatal b1).uploadAttempts = 1) := by
  have hft : file_too_large fs p maxMb = false := by
    simp [file_too_large, hfs, hsz]
  unfold cb_get_run
  simp only [hl, hfs, hft]
  refine ⟨?_, ?_, ?_⟩
  · cases a1 <;> simp [send_with_retry]
  · intro ha1
    cases a1 <;> simp_all [send_with_retry]
  · intro b1
    simp [send_with_retry]

/-- Witness for C7: the amended theorem applied to the run whose two upload
attempts both fail transiently. -/
theorem C7_witness :
    (cb_get_run job1 env1 false fs1 1900 UpRes.transient UpRes.transient).uploadAttempts
        = 2 ∧
    (cb_get_run job1 env1 false fs1 1900 UpRes.transient UpRes.transient).outcome =
      Outcome.uploadFailed ∧
    (cb_get_run job1 env1 false fs1 1900 UpRes.transient UpRes.transient).fileDeleted =
      true :=
  ⟨(C7_upload_retry job1 env1 false fs1 1900 UpRes.transient
      ("downloads/vid [id1].mp4") 1000 (by decide) (by decide) (by decide)).1,
    ((C7_upload_retry job1 env1 false fs1 1900 UpRes.transient
      ("downloads/vid [id1].mp4") 1000 (by decide) (by decide) (by decide)).2.1
      (by decide)).1,
    ((C7_upload_retry job1 env1 false fs1 1900 UpRes.transient
      ("downloads/vid [id1].mp4") 1000 (by decide) (by decide) (by decide)).2.1
      (by decide)).2.1⟩

/-- Claim C8 (confirmed): token_to_format maps the token best to bv*+ba/b,
and maps every token of the letter h followed by a non-empty digit string of
positive value H to the height-capped selector mentioning H twice. -/
theorem C8_token_to_format_shapes :
    token_to_format "best" = "bv*+ba/b" ∧
    ∀ rest : List Char, rest ≠ [] → rest.all Char.isDigit = true →
      0 < decimalValue rest →
      token_to_format ("h" ++ String.mk rest) =
        "bv*[height<=" ++ String.mk (natDecimal (decimalValue rest)) ++
          "]+ba/b[height<=" ++ String.mk (natDecimal (decimalValue rest)) ++ "]" := by
  refine ⟨by decide, ?_⟩
  intro rest h1 h2 _
  exact tf_on_digits rest h1 h2

/-- Witness for C8: the translation theorem applied to the digit string 720. -/
theorem C8_witness :
    0 < decimalValue ("720".data) ∧
    token_to_format ("h" ++ String.mk ("720".data)) =
      "bv*[height<=" ++ String.mk (natDecimal (decimalValue ("720".data))) ++
        "]+ba/b[height<=" ++ String.mk (natDecimal (decimalValue ("720".data))) ++ "]" :=
  ⟨by decide,
    C8_token_to_format_shapes.2 ("720".data) (by decide) (by decide) (by decide)⟩

/-- Claim C9 (confirmed): every token the quality keyboard produces — best,
and hN for each offered nonzero height, including the fixed fallback ladder
1080/720/480/360 — is mapped by token_to_format to the matching selector;
the translation is total on the produced tokens. -/
theorem C9_produced_tokens_translate (heights : List Nat) (ib : Bool) (t : String)
    (ht : t ∈ kb_tokens heights ib) :
    (t = "best" ∧ token_to_format t = "bv*+ba/b") ∨
    (∃ h, h ∈ heights ∧ h ≠ 0 ∧ t = "h" ++ String.mk (natDecimal h) ∧
      token_to_format t = capped_selector h) := by
  unfold kb_tokens at ht
  rw [List.mem_append] at ht
  rcases ht with ht | ht
  · left
    have hbest : t = "best" := by
      cases ib
      · simp at ht
      · simpa using ht
    exact ⟨hbest, by rw [hbest]; decide⟩
  · right
    rw [List.mem_map] at ht
    obtain ⟨h, hh, rfl⟩ := ht
    rw [List.mem_filter] at hh
    obtain ⟨hsort, hnz⟩ := hh
    have hmem : h ∈ heights :=
      List.mem_dedup.mp
        ((List.perm_insertionSort (fun a b => a ≥ b) heights.dedup).mem_iff.mp hsort)
    have hnz' : h ≠ 0 := by simpa using hnz
    refine ⟨h, hmem, hnz', rfl, ?_⟩
    rw [tf_on_digits _ (natDecimal_ne_nil h) (natDecimal_digits h),
      decimalValue_natDecimal]

/-- Witness for C9: the round-trip theorem applied to the token h720 as
produced for the fixed fallback ladder. -/
theorem C9_witness :
    (("h720" : String) = "best" ∧ token_to_format "h720" = "bv*+ba/b") ∨
    (∃ h, h ∈ [1080, 720, 480, 360] ∧ h ≠ 0 ∧
      ("h720" : String) = "h" ++ String.mk (natDecimal h) ∧
      token_to_format "h720" = capped_selector h) :=
  C9_produced_tokens_translate [1080, 720, 480, 360] true "h720" (by decide)

/-- Claim C10 (confirmed): file_too_large is total — a path absent from disk
(where the size query raises FileNotFoundError) yields false, and an
existing path yields true exactly when its byte size strictly exceeds the
megabyte ceiling times 1024 times 1024. -/
theorem C10_file_too_large_total (fs : String → Option Nat) (path : String)
    (maxMb : Nat) :
    (fs path = none → file_too_large fs path maxMb = false) ∧
    ∀ sz, fs path = some sz →
      (file_too_large fs path maxMb = true ↔ sz > maxMb * 1024 * 1024) := by
  constructor
  · intro h
    simp [file_too_large, h]
  · intro sz h
    simp [file_too_large, h]

/-- Witness for C10: the totality theorem applied to an empty disk and to a
disk holding a 2000000-byte file against a 1 MB ceiling. -/
theorem C10_witness :
    file_too_large (fsOf []) "a" 1 = false ∧
    (file_too_large (fsOf [("a", 2000000)]) "a" 1 = true ↔ 2000000 > 1 * 1024 * 1024) :=
  ⟨(C10_file_too_large_total (fsOf []) "a" 1).1 (by decide),
    (C10_file_too_large_total (fsOf [("a", 2000000)]) "a" 1).2 2000000 (by decide)⟩

end DlBot
